import Mathlib

/-
Verification of the core simulation of ai_pong (src/main.py) against its
specification.

Modelling conventions:
  * pygame Rect coordinates are machine integers; every arithmetic value the
    program actually manipulates (positions, the movement vector (1, 4), the
    speed 1.0, velocities) is integer-valued, so the embedding uses Int
    throughout.  A pygame Rect of size (w, h) anchored at topleft (x, y) has
    left = x, right = x + w, top = y, bottom = y + h, center = (x + w / 2,
    y + h / 2) with integer halving; the sprite surfaces here have even sizes
    (paddle 20 x 100, ball 20 x 20) so the halves are exact.
  * Assigning rect.top = v moves the whole rect (y := v); assigning
    rect.bottom = v sets y := v - h; assigning rect.center moves both axes.
  * print calls are output-only side effects and are dropped.
-/

/-- State of one Paddle sprite (src/main.py lines 6-47): a 20 x 100 rect with
topleft (x, y), the clamp ceiling y_ceil (the screen height passed to the
constructor) and the stored vertical velocity y_movement. -/
structure Paddle where
  x : Int
  y : Int
  y_ceil : Int
  y_movement : Int
  deriving DecidableEq

/-- Top edge of the paddle rect: rect.top = y. -/
def Paddle.top (p : Paddle) : Int := p.y

/-- Bottom edge of the paddle rect: rect.bottom = y + 100 (height 100). -/
def Paddle.bottom (p : Paddle) : Int := p.y + 100

/-- Constructor Paddle.__init__ (lines 19-32): a 20 x 100 rect centered at
(cx, cy), so topleft = (cx - 10, cy - 50); y_ceil := screen_height and
y_movement := 0. -/
def Paddle.init (screen_height cx cy : Int) : Paddle :=
  { x := cx - 10, y := cy - 50, y_ceil := screen_height, y_movement := 0 }

/-- Paddle.move_y (lines 34-40): stores dy in y_movement, nothing else. -/
def Paddle.move_y (p : Paddle) (dy : Int) : Paddle :=
  { p with y_movement := dy }

/-- Paddle.update (lines 42-47): rect.y += y_movement; then
if rect.top > y_ceil then rect.top := y_ceil (y := y_ceil);
then, on the updated rect, if rect.bottom < 0 then rect.bottom := 0
(y := -100). -/
def Paddle.update (p : Paddle) : Paddle :=
  let y1 := p.y + p.y_movement
  let y2 := if y1 > p.y_ceil then p.y_ceil else y1
  let y3 := if y2 + 100 < 0 then -100 else y2
  { p with y := y3 }

/-- State of the Ball sprite (src/main.py lines 50-115): a 20 x 20 rect given
by its center, the movement vector (vx, vy), the scalar speed, the borders
(borderW, borderH) = screen_size, and x_collided (0 playing, -1 left goal,
1 right goal). -/
structure Ball where
  centerX : Int
  centerY : Int
  vx : Int
  vy : Int
  speed : Int
  borderW : Int
  borderH : Int
  x_collided : Int
  deriving DecidableEq

/-- Left edge of the ball rect: center x minus half width 10. -/
def Ball.left (b : Ball) : Int := b.centerX - 10

/-- Right edge of the ball rect: center x plus half width 10. -/
def Ball.right (b : Ball) : Int := b.centerX + 10

/-- Top edge of the ball rect: center y minus half height 10. -/
def Ball.top (b : Ball) : Int := b.centerY - 10

/-- Bottom edge of the ball rect: center y plus half height 10. -/
def Ball.bottom (b : Ball) : Int := b.centerY + 10

/-- Constructor Ball.__init__ (lines 60-79): rect centered at init_pos,
movement_vec := (1, 4), x_collided := 0. -/
def Ball.init (w h cx cy speed : Int) : Ball :=
  { centerX := cx, centerY := cy, vx := 1, vy := 4, speed := speed,
    borderW := w, borderH := h, x_collided := 0 }

/-- Ball.score (lines 81-82): read accessor for x_collided. -/
def Ball.score (b : Ball) : Int := b.x_collided

/-- Ball.update (lines 84-115), one faithful sequential step:
(dx, dy) := movement_vec * speed;
if left + dx < 0 then x_collided := -1
else if right + dx >= borderW then x_collided := 1;
if top + dy < 0 then rect.top := -(top + dy) and vy := -vy
else if bottom + dy >= borderH then rect.bottom := 2 * borderH - (bottom + dy)
and vy := -vy;
finally rect.center += movement_vec (the possibly negated vector, unscaled). -/
def Ball.update (b : Ball) : Ball :=
  let dx := b.vx * b.speed
  let dy := b.vy * b.speed
  let xc :=
    if b.left + dx < 0 then -1
    else if b.right + dx ≥ b.borderW then 1
    else b.x_collided
  let b1 : Ball := { b with x_collided := xc }
  let b2 : Ball :=
    if b1.top + dy < 0 then
      { b1 with centerY := -(b1.top + dy) + 10, vy := -b1.vy }
    else if b1.bottom + dy ≥ b1.borderH then
      { b1 with centerY := (2 * b1.borderH - (b1.bottom + dy)) - 10, vy := -b1.vy }
    else b1
  { b2 with centerX := b2.centerX + b2.vx, centerY := b2.centerY + b2.vy }

/-- Steps 1-3 of Ball.update only (scoring flag and vertical border
resolution), without the final center += movement_vec commit; used to state
how the commit relates to the rest of the tick. -/
def Ball.resolveBorders (b : Ball) : Ball :=
  let dx := b.vx * b.speed
  let dy := b.vy * b.speed
  let xc :=
    if b.left + dx < 0 then -1
    else if b.right + dx ≥ b.borderW then 1
    else b.x_collided
  let b1 : Ball := { b with x_collided := xc }
  if b1.top + dy < 0 then
    { b1 with centerY := -(b1.top + dy) + 10, vy := -b1.vy }
  else if b1.bottom + dy ≥ b1.borderH then
    { b1 with centerY := (2 * b1.borderH - (b1.bottom + dy)) - 10, vy := -b1.vy }
  else b1

/-- Ball states reachable in a run: a freshly constructed ball, or any number
of Ball.update ticks after one (no other code writes ball state). -/
inductive Ball.Reachable : Ball → Prop where
  | init (w h cx cy speed : Int) : Ball.Reachable (Ball.init w h cx cy speed)
  | step (b : Ball) : Ball.Reachable b → Ball.Reachable b.update

/-- State of the Engine (src/main.py lines 123-200) restricted to the
simulation fields the update loop touches: state_id (0 = PLAYING,
1 = ROUND_END evaluation phase), the ball and the paddle group. -/
structure Engine where
  state_id : Int
  ball : Ball
  paddles : List Paddle
  deriving DecidableEq

/-- Engine.update (lines 169-177).  In state 0 it updates every paddle, then
the ball, then runs the transition test of line 174.  That line reads
if self.__ball.score != 0 - comparing the bound method object score, not
the value score(), against 0.  In Python a bound method is never equal to an
int, so the test is always true and state_id becomes 1 on every playing
tick.  In state 1 it only sets state_id := 0. -/
def Engine.update (e : Engine) : Engine :=
  if e.state_id = 0 then
    { e with paddles := e.paddles.map Paddle.update,
             ball := e.ball.update,
             state_id := 1 }
  else if e.state_id = 1 then
    { e with state_id := 0 }
  else e

/-- Engine state built by main() (lines 202-207): state_id 0, left paddle
centered at (0, 360), right paddle at (1280, 360), ball at (640, 360) in a
1280 x 720 field with speed 1. -/
def Engine.initMain : Engine :=
  { state_id := 0,
    ball := Ball.init 1280 720 640 360 1,
    paddles := [Paddle.init 720 0 360, Paddle.init 720 1280 360] }

/-! Helper lemmas shared by several claim proofs. -/

/-- Only the horizontal border test of lines 93-94 writes x_collided during a
tick; the vertical resolution and the final commit leave it alone. -/
lemma Ball.update_x_collided (b : Ball) :
    b.update.x_collided =
      if b.left + b.vx * b.speed < 0 then -1
      else if b.right + b.vx * b.speed ≥ b.borderW then 1
      else b.x_collided := by
  simp only [Ball.update]
  split_ifs <;> rfl

/-- One tick never writes 0 back into x_collided. -/
lemma Ball.update_x_collided_ne_zero (b : Ball) (h : b.x_collided ≠ 0) :
    b.update.x_collided ≠ 0 := by
  rw [Ball.update_x_collided]
  split_ifs <;> omega

/-- Every reachable ball state has x_collided in {0, -1, 1}. -/
lemma Ball.reachable_x_collided_mem (b : Ball) (h : Ball.Reachable b) :
    b.x_collided = 0 ∨ b.x_collided = -1 ∨ b.x_collided = 1 := by
  induction h with
  | init w h cx cy speed => exact Or.inl rfl
  | step b hb ih =>
      rw [Ball.update_x_collided]
      split_ifs
      · exact Or.inr (Or.inl rfl)
      · exact Or.inr (Or.inr rfl)
      · exact ih

/-! Claim theorems. -/

/-- Claim C1, evaluated at the failing input: in the engine state main()
builds, the ball has not scored (x_collided = 0) before and after the first
tick, yet that tick already moves state_id from 0 (PLAYING) to 1 (ROUND_END),
because line 174 compares the bound method score itself, not score(), to 0;
the following tick returns state_id to 0 unconditionally. -/
theorem C1_phase_bug_at_initial_state :
    Engine.initMain.state_id = 0 ∧
    Engine.initMain.ball.x_collided = 0 ∧
    Engine.initMain.update.ball.x_collided = 0 ∧
    Engine.initMain.update.state_id = 1 ∧
    Engine.initMain.update.update.state_id = 0 := by decide

/-- Claim C2 counterexample: a paddle whose y_ceil is -200 (with y = 0 and
zero velocity) ends one update() with top edge -100, which exceeds
y_ceil = -200, so the clamp invariant fails for that paddle state. -/
theorem C2_counterexample :
    (Paddle.mk 0 0 (-200) 0).y_ceil = -200 ∧
    ¬ (Paddle.mk 0 0 (-200) 0).update.top ≤ -200 := by decide

/-- Claim C2 as amended: for every paddle whose y_ceil is at least -100 (the
negated paddle height; in particular any non-negative screen height), after
one update() the top edge is at most y_ceil and the bottom edge is at least
0. -/
theorem C2_paddle_clamp_invariant (p : Paddle) (hc : -100 ≤ p.y_ceil) :
    p.update.top ≤ p.y_ceil ∧ 0 ≤ p.update.bottom := by
  simp only [Paddle.update, Paddle.top, Paddle.bottom]
  split_ifs <;> constructor <;> omega

/-- Claim C2 witness: the amended invariant applied to the left paddle of
main() moving upward by 500. -/
theorem C2_witness :
    (Paddle.move_y (Paddle.init 720 0 360) (-500)).update.top ≤ 720 ∧
    0 ≤ (Paddle.move_y (Paddle.init 720 0 360) (-500)).update.bottom :=
  C2_paddle_clamp_invariant (Paddle.move_y (Paddle.init 720 0 360) (-500))
    (by decide)

/-- Claim C3: the ball constructed at center (640, 360) in the 1280 x 720
field with movement_vec (1, 4), speed 1 and x_collided 0 ends one update()
at center (641, 364) with x_collided still 0. -/
theorem C3_center_ball_one_tick :
    (Ball.init 1280 720 640 360 1).update.centerX = 641 ∧
    (Ball.init 1280 720 640 360 1).update.centerY = 364 ∧
    (Ball.init 1280 720 640 360 1).update.x_collided = 0 := by decide

/-- Claim C4 counterexample: the ball at center (640, 10) (top edge 0) with
movement_vec (1, -4) and speed 1 projects top + dy = -4 < 0, so the claim
asserts a post-update top edge of -(top + dy) = 4; but update() ends with top
edge 8, because the final center += movement_vec commit moves the ball again
after the reflection step assigned top := 4. -/
theorem C4_counterexample :
    (Ball.mk 640 10 1 (-4) 1 1280 720 0).top
        + (Ball.mk 640 10 1 (-4) 1 1280 720 0).vy
          * (Ball.mk 640 10 1 (-4) 1 1280 720 0).speed < 0 ∧
    -((Ball.mk 640 10 1 (-4) 1 1280 720 0).top
        + (Ball.mk 640 10 1 (-4) 1 1280 720 0).vy
          * (Ball.mk 640 10 1 (-4) 1 1280 720 0).speed) = 4 ∧
    (Ball.mk 640 10 1 (-4) 1 1280 720 0).update.top = 8 := by decide

/-- Claim C4 as amended: when top + dy < 0 at the start of a tick, the y
component of movement_vec is negated, the overflow distance -(top + dy) is
non-negative and is the top edge set by the reflection step (before the final
commit), and the top edge after the full update() equals -(top + dy) minus
the pre-tick movement_vec y component. -/
theorem C4_vertical_reflection (b : Ball)
    (h : b.top + b.vy * b.speed < 0) :
    b.update.vy = -b.vy ∧
    0 ≤ -(b.top + b.vy * b.speed) ∧
    b.resolveBorders.top = -(b.top + b.vy * b.speed) ∧
    b.update.top = -(b.top + b.vy * b.speed) - b.vy := by
  simp only [Ball.update, Ball.resolveBorders, Ball.top] at h ⊢
  split_ifs <;> dsimp only <;> omega

/-- Claim C4 witness: the amended reflection property at the ball of the
counterexample input. -/
theorem C4_witness :
    (Ball.mk 640 10 1 (-4) 1 1280 720 0).update.vy = 4 ∧
    (Ball.mk 640 10 1 (-4) 1 1280 720 0).update.top = 8 := by
  have h := C4_vertical_reflection (Ball.mk 640 10 1 (-4) 1 1280 720 0)
    (by decide)
  exact ⟨h.1.trans (by decide), h.2.2.2.trans (by decide)⟩

/-- Claim C5: one update() sets x_collided to -1 exactly when the projected
left + dx < 0, otherwise to 1 exactly when the projected right + dx reaches
borderW, otherwise leaves it unchanged; and every reachable ball state has
x_collided in {0, -1, 1}. -/
theorem C5_horizontal_scoring (b : Ball) :
    (b.update.x_collided =
       if b.left + b.vx * b.speed < 0 then -1
       else if b.right + b.vx * b.speed ≥ b.borderW then 1
       else b.x_collided) ∧
    (Ball.Reachable b →
       b.x_collided = 0 ∨ b.x_collided = -1 ∨ b.x_collided = 1) :=
  ⟨Ball.update_x_collided b, Ball.reachable_x_collided_mem b⟩

/-- Claim C5 witness: the scoring rule and the tri-state invariant at the
ball of main() after one tick. -/
theorem C5_witness :
    (Ball.init 1280 720 640 360 1).update.x_collided =
      (if (Ball.init 1280 720 640 360 1).left
            + (Ball.init 1280 720 640 360 1).vx
              * (Ball.init 1280 720 640 360 1).speed < 0 then -1
       else if (Ball.init 1280 720 640 360 1).right
            + (Ball.init 1280 720 640 360 1).vx
              * (Ball.init 1280 720 640 360 1).speed
            ≥ (Ball.init 1280 720 640 360 1).borderW then 1
       else (Ball.init 1280 720 640 360 1).x_collided) ∧
    ((Ball.init 1280 720 640 360 1).x_collided = 0 ∨
     (Ball.init 1280 720 640 360 1).x_collided = -1 ∨
     (Ball.init 1280 720 640 360 1).x_collided = 1) :=
  ⟨(C5_horizontal_scoring (Ball.init 1280 720 640 360 1)).1,
   (C5_horizontal_scoring (Ball.init 1280 720 640 360 1)).2
     (Ball.Reachable.init 1280 720 640 360 1)⟩

/-- Claim C6 counterexample: starting from x_collided = 0 with the ball just
left of the field moving right (center (-101, 360), movement_vec (100, 0),
speed 1), the first update() sets x_collided = -1, and the fourteenth sets
x_collided = 1: within one no-reset sequence of ticks the score side switches
from one terminal value to the other. -/
theorem C6_counterexample :
    (Ball.mk (-101) 360 100 0 1 1280 720 0).x_collided = 0 ∧
    (Ball.update^[1] (Ball.mk (-101) 360 100 0 1 1280 720 0)).x_collided
      = -1 ∧
    (Ball.update^[14] (Ball.mk (-101) 360 100 0 1 1280 720 0)).x_collided
      = 1 := by
  refine ⟨rfl, by decide, ?_⟩
  set_option maxRecDepth 4000 in decide

/-- Claim C6 as amended: x_collided starts at 0 (NONE) on construction, and
once it is non-zero no number of further ticks returns it to 0 — though it
may switch between the terminal values -1 and 1, as update() recomputes the
border test every tick. -/
theorem C6_score_never_returns_to_none (b : Ball) (n : Nat)
    (h : b.x_collided ≠ 0) :
    (Ball.update^[n] b).x_collided ≠ 0 ∧
    (∀ w ht cx cy sp : Int, (Ball.init w ht cx cy sp).x_collided = 0) := by
  constructor
  · induction n generalizing b with
    | zero => exact h
    | succ n ih =>
        rw [Function.iterate_succ_apply]
        exact ih b.update (Ball.update_x_collided_ne_zero b h)
  · intro w ht cx cy sp
    rfl

/-- Claim C6 witness: a ball that already touched the right goal keeps a
non-zero x_collided for two more ticks. -/
theorem C6_witness :
    (Ball.update^[2] (Ball.mk 0 0 1 0 1 1280 720 1)).x_collided ≠ 0 ∧
    (∀ w ht cx cy sp : Int, (Ball.init w ht cx cy sp).x_collided = 0) :=
  C6_score_never_returns_to_none (Ball.mk 0 0 1 0 1 1280 720 1) 2
    (by decide)

/-- Claim C7: one update() is exactly the scoring and vertical-border
resolution followed by a commit that adds the (possibly already negated)
movement_vec itself — not movement_vec * speed — to the center; in
particular the x displacement of any tick is vx for every speed value. -/
theorem C7_commit_adds_unscaled_direction (b : Ball) :
    b.update = { b.resolveBorders with
                   centerX := b.resolveBorders.centerX + b.resolveBorders.vx,
                   centerY := b.resolveBorders.centerY
                     + b.resolveBorders.vy } ∧
    b.update.centerX = b.centerX + b.vx := by
  constructor
  · simp only [Ball.update, Ball.resolveBorders]
  · simp only [Ball.update]
    split_ifs <;> rfl

/-- Claim C8: move_y(dy) stores dy as the vertical velocity and changes
nothing else — the rect position (x and y, hence the fixed 20 x 100 size and
edges) and the clamp bound are untouched, for every dy with no validation. -/
theorem C8_move_y_stores_velocity_only (p : Paddle) (dy : Int) :
    (p.move_y dy).y_movement = dy ∧
    (p.move_y dy).x = p.x ∧
    (p.move_y dy).y = p.y ∧
    (p.move_y dy).y_ceil = p.y_ceil :=
  ⟨rfl, rfl, rfl, rfl⟩

/-- Claim C9: one update() keeps speed and the x component of movement_vec
unchanged (no paddle reflection exists), changes the y component at most in
sign, and preserves the absolute value of both components. -/
theorem C9_direction_magnitude_preserved (b : Ball) :
    b.update.speed = b.speed ∧
    b.update.vx = b.vx ∧
    (b.update.vy = b.vy ∨ b.update.vy = -b.vy) ∧
    |b.update.vx| = |b.vx| ∧
    |b.update.vy| = |b.vy| := by
  simp only [Ball.update]
  split_ifs <;> simp [abs_neg]

/-- Claim C10: from state_id 1 (ROUND_END) one engine update() leaves the
ball and every paddle byte-for-byte identical — center, movement_vec, speed,
x_collided, positions and velocities included — and only moves state_id back
to 0 (PLAYING). -/
theorem C10_round_end_mutates_only_phase (e : Engine)
    (h : e.state_id = 1) :
    e.update.ball = e.ball ∧
    e.update.paddles = e.paddles ∧
    e.update.state_id = 0 := by
  have h0 : ¬ e.state_id = 0 := by omega
  refine ⟨?_, ?_, ?_⟩ <;> simp [Engine.update, if_neg h0, if_pos h]

/-- Claim C10 witness: the round-end passthrough applied to the engine state
of main() after its first tick, which has state_id 1. -/
theorem C10_witness :
    Engine.initMain.update.update.ball = Engine.initMain.update.ball ∧
    Engine.initMain.update.update.paddles
      = Engine.initMain.update.paddles ∧
    Engine.initMain.update.update.state_id = 0 :=
  C10_round_end_mutates_only_phase Engine.initMain.update (by decide)
